import Mathlib

/-
  Verification development for the PatchVerify promise-verification engine.

  The definitions below are a shallow embedding of the Python sources:
    src/scorer.py   — signal fusion (score_promise, _compute_verdict) and
                      risk aggregation (compute_risk_score)
    src/cve.py      — version-range evaluation (check_version_fixed)
    src/differ.py   — file-change relevance matching (file_changed_for_promise)
    src/prober.py   — behavioral probe runner (run_probe and helpers)
    src/scanner.py  — the orchestrator slice that combines the two probe runs

  Python dicts are modelled as structures; tri-state True/False/None values
  as Option Bool; floats as exact rationals (the idealization of IEEE
  arithmetic: all quantities involved are small and the spec and source use
  the same formulas); Python int() truncation on the nonnegative values
  occurring here coincides with the floor function, which is what we use.
  External process execution and network calls are modelled by explicit
  outcome parameters.
-/

namespace PatchVerify

/-- Tri-state helper: Python truthiness of an optional string
(None and the empty string are falsy). -/
def truthy : Option String → Bool
  | some s => s ≠ ""
  | none => false

/-! ### Character-list string primitives

The embedding implements the string operations the sources use (lower,
split, strip, startswith, int parsing) by structural recursion on
character lists, mirroring their Python semantics on ASCII text. -/

/-- ASCII lowercasing of one character (Python str.lower on ASCII). -/
def char_lower (c : Char) : Char :=
  if 'A' ≤ c && c ≤ 'Z' then Char.ofNat (c.toNat + 32) else c

/-- Lowercased character list of a string (Python s.lower()). -/
def to_lower_chars (s : String) : List Char :=
  s.toList.map char_lower

/-- Split a character list at every occurrence of the separator character
(Python s.split(sep) for a one-character separator; the empty string
yields one empty part). -/
def split_char (sep : Char) : List Char → List (List Char)
  | [] => [[]]
  | c :: t =>
    if c = sep then [] :: split_char sep t
    else
      match split_char sep t with
      | r :: rs => (c :: r) :: rs
      | [] => [[c]]

/-- Accumulator loop for decimal parsing. -/
def parse_nat_core : List Char → Nat → Option Nat
  | [], acc => some acc
  | c :: t, acc =>
    if c.isDigit then parse_nat_core t (acc * 10 + (c.toNat - '0'.toNat))
    else none

/-- Decimal parsing of a nonempty all-digit character list (Python int()
restricted to nonnegative decimal literals). -/
def parse_nat (l : List Char) : Option Nat :=
  if l.isEmpty then none else parse_nat_core l 0

/-- Signed decimal parsing (Python int() on decimal literals with an
optional leading minus sign). -/
def parse_int (l : List Char) : Option Int :=
  match l with
  | '-' :: t => (parse_nat t).map fun n => -(n : Int)
  | _ => (parse_nat l).map fun n => (n : Int)

/-- Python s.startswith(pre). -/
def starts_with (pre s : String) : Bool :=
  pre.toList.isPrefixOf s.toList

/-- Python s.strip(): remove leading and trailing whitespace. -/
def trim_chars (l : List Char) : List Char :=
  ((l.dropWhile Char.isWhitespace).reverse.dropWhile Char.isWhitespace).reverse

/-! ## Data model (src/scorer.py, src/cve.py dict shapes) -/

/-- Promise record: src/extractor.py output shape, consumed by the scorer. -/
structure Promise where
  type : String
  id : String
  description : String
  bug_class : Option String

/-- Vulnerability record shape produced by src/cve.py parsers; only the
fields the verified components read are included. -/
structure CveRecord where
  id : String
  description : String
  severity : Option String
  fixed_in : Option String
  affected_below : Option String

/-- Return shape of check_version_fixed (src/cve.py line 55). -/
structure RangeCheck where
  fixed : Option Bool
  method : String
  detail : String

/-- Return shape of file_changed_for_promise (src/differ.py line 162).
Keys absent in a given Python return value are modelled by [] / none. -/
structure DiffCheck where
  checked : Bool
  files_changed : Option Bool
  relevant_changes : List String
  changed_sample : List String
  reason : String

/-- Return shape of run_probe (src/prober.py): keys ran / result / message /
reason / passed, each possibly absent. -/
structure ProbeReturn where
  ran : Bool
  result : Option String
  message : Option String
  reason : Option String
  passed : Option Bool
deriving DecidableEq

/-- Verdict returned by score_promise (src/scorer.py line 74). -/
structure Verdict where
  status : String
  confidence : Int
  signals : List String

/-! ## Signal fusion (src/scorer.py) -/

/-- SEVERITY_WEIGHTS table (src/scorer.py line 6) together with the
dict.get default 3 used at line 128. -/
def severity_weight (sev : String) : Nat :=
  if sev = "CRITICAL" then 10
  else if sev = "HIGH" then 7
  else if sev = "MEDIUM" then 4
  else if sev = "LOW" then 1
  else if sev = "UNKNOWN" then 3
  else 3

/-- total_weight (src/scorer.py line 88): sum of all signal weights. -/
def total_weight (weights : List (Nat × Bool)) : Nat :=
  (weights.map Prod.fst).sum

/-- positive_weight (src/scorer.py line 89): sum of weights of positive signals. -/
def positive_weight (weights : List (Nat × Bool)) : Nat :=
  ((weights.filter fun p => p.2).map Prod.fst).sum

/-- ratio (src/scorer.py line 92): positive_weight / total_weight, with the
0.5 fallback when total_weight is zero. -/
def pos_ratio (weights : List (Nat × Bool)) : ℚ :=
  if 0 < total_weight weights then
    (positive_weight weights : ℚ) / (total_weight weights : ℚ)
  else (1 : ℚ) / 2

/-- _compute_verdict (src/scorer.py lines 81-112).  The source also computes
negative_weight (line 90) but never uses it, so it is omitted.  Python
int() on the nonnegative quantities appearing here equals Int.floor. -/
def compute_verdict (weights : List (Nat × Bool)) (cve_fixed : Option Bool) :
    String × Int :=
  if weights.isEmpty then ("UNCONFIRMED", 30)
  else if cve_fixed = some false then
    if pos_ratio weights < (2 : ℚ) / 5 then
      ("NOT_FIXED", Int.floor ((70 : ℚ) + (1 - pos_ratio weights) * 25))
    else
      ("NOT_FIXED", 65)
  else if (3 : ℚ) / 4 ≤ pos_ratio weights then
    ("FIXED", min (Int.floor ((70 : ℚ) + pos_ratio weights * 28)) 97)
  else if (1 : ℚ) / 2 ≤ pos_ratio weights then
    ("FIXED", min (Int.floor ((50 : ℚ) + pos_ratio weights * 30)) 75)
  else if (1 : ℚ) / 4 ≤ pos_ratio weights then
    ("UNCONFIRMED", Int.floor ((30 : ℚ) + pos_ratio weights * 30))
  else
    ("NOT_FIXED", min (Int.floor ((60 : ℚ) + (1 - pos_ratio weights) * 35)) 95)

/-- Signal 1 of score_promise (src/scorer.py lines 31-40): the weight
contribution of the CVE version-range check. -/
def cve_weights (cve_fixed : Option Bool) : List (Nat × Bool) :=
  match cve_fixed with
  | some true => [(40, true)]
  | some false => [(40, false)]
  | none => []

/-- Signal 1 of score_promise: the human-readable evidence string. -/
def cve_signal (cve_check : RangeCheck) : String :=
  match cve_check.fixed with
  | some true => "✅ CVE version range: " ++ cve_check.detail
  | some false => "❌ CVE version range: " ++ cve_check.detail
  | none => "⚠  CVE range: " ++ cve_check.detail

/-- Signal 2 of score_promise (src/scorer.py lines 43-55): the weight
contribution of the file diff; nothing is contributed when the diff was
not checked. -/
def diff_weights (diff_check : DiffCheck) : List (Nat × Bool) :=
  if diff_check.checked then
    match diff_check.files_changed with
    | some true => [(35, true)]
    | some false => [(35, false)]
    | none => [(15, true)]
  else []

/-- Signal 2 of score_promise: the human-readable evidence string. -/
def diff_signal (diff_check : DiffCheck) : String :=
  if diff_check.checked then
    match diff_check.files_changed with
    | some true => "✅ File diff: " ++ diff_check.reason
    | some false => "❌ File diff: " ++ diff_check.reason
    | none => "⚠  File diff: " ++ diff_check.reason
  else "─  File diff: " ++ diff_check.reason

/-- Signal 3 of score_promise (src/scorer.py lines 58-69): the weight
contribution of the behavioral probe. -/
def probe_weights (probe_result : ProbeReturn) : List (Nat × Bool) :=
  if probe_result.ran then
    match probe_result.passed with
    | some true => [(25, true)]
    | some false => [(25, false)]
    | none => []
  else []

/-- Signal 3 of score_promise: the human-readable evidence string. -/
def probe_signal (probe_result : ProbeReturn) : String :=
  if probe_result.ran then
    match probe_result.passed with
    | some true => "✅ Behavioral probe: " ++ (probe_result.message.getD "Passed.")
    | some false => "❌ Behavioral probe: " ++ (probe_result.message.getD "Failed.")
    | none => "⚠  Behavioral probe: " ++ (probe_result.message.getD "Inconclusive.")
  else "─  Behavioral probe: " ++ (probe_result.reason.getD "Not applicable.")

/-- score_promise (src/scorer.py lines 15-78).  The promise argument is
accepted but, as in the source, never read. -/
def score_promise (promise : Promise) (cve_check : RangeCheck)
    (diff_check : DiffCheck) (probe_result : ProbeReturn) : Verdict :=
  let signals := [cve_signal cve_check, diff_signal diff_check,
                  probe_signal probe_result]
  let weights := cve_weights cve_check.fixed ++ diff_weights diff_check ++
                 probe_weights probe_result
  let v := compute_verdict weights cve_check.fixed
  { status := v.1, confidence := v.2, signals := signals }

/-! ## Risk aggregation (src/scorer.py lines 115-148) -/

/-- Rounding to the nearest integer with ties to even, on exact rationals:
the semantics of Python's round applied to the exact value of its argument. -/
def round_half_even (q : ℚ) : Int :=
  let n := Int.floor q
  let f := q - (n : ℚ)
  if f < (1 : ℚ) / 2 then n
  else if (1 : ℚ) / 2 < f then n + 1
  else if Even n then n else n + 1

/-- round(x, 1): rounding to one decimal place, ties to even, as an exact
rational. -/
def py_round1 (q : ℚ) : ℚ := (round_half_even (10 * q) : ℚ) / 10

/-- Return shape of compute_risk_score (src/scorer.py line 121). -/
structure RiskResult where
  score : ℚ
  label : String
  color : String
deriving DecidableEq

/-- Severity weight of one zipped (verdict, cve) pair
(src/scorer.py lines 127-128). -/
def pair_weight (p : Verdict × CveRecord) : Nat :=
  severity_weight (p.2.severity.getD "UNKNOWN")

/-- Exposure contribution of one zipped (verdict, cve) pair
(src/scorer.py lines 130-133): full weight for NOT_FIXED, half weight for
UNCONFIRMED, nothing otherwise. -/
def pair_exposed (p : Verdict × CveRecord) : ℚ :=
  if p.1.status = "NOT_FIXED" then (pair_weight p : ℚ)
  else if p.1.status = "UNCONFIRMED" then (pair_weight p : ℚ) * ((1 : ℚ) / 2)
  else 0

/-- compute_risk_score (src/scorer.py lines 115-148). -/
def compute_risk_score (verdicts : List Verdict) (cves : List CveRecord) :
    RiskResult :=
  if verdicts.isEmpty then { score := 0, label := "NONE", color := "green" }
  else
    let pairs := verdicts.zip cves
    let total_w : Nat := (pairs.map pair_weight).sum
    let exposed_w : ℚ := (pairs.map pair_exposed).sum
    let score : ℚ :=
      if 0 < total_w then py_round1 (exposed_w / (total_w : ℚ) * 100) else 0
    if 70 ≤ score then { score := score, label := "CRITICAL", color := "red" }
    else if 45 ≤ score then { score := score, label := "HIGH", color := "orange" }
    else if 20 ≤ score then { score := score, label := "MEDIUM", color := "yellow" }
    else if 0 < score then { score := score, label := "LOW", color := "green" }
    else { score := score, label := "NONE", color := "green" }

/-! ## Version-range evaluation (src/cve.py lines 55-101) -/

/-- Modelled from the spec: src/cve.py parses versions with the external
packaging library, which is not part of this repository.  Following the
spec (§3, §4.1: semantic versions, "version comparisons use semantic
ordering, never lexical string comparison"), a version string parses as a
dot-separated list of nonnegative integers; anything else is malformed
(the InvalidVersion case of the source). -/
def parse_version (s : String) : Option (List Nat) :=
  (split_char '.' s.toList).mapM parse_nat

/-- Modelled from the spec: strict semantic-version ordering on parsed
versions, componentwise, with missing trailing components read as zero
(so 4.2 and 4.2.0 are equal). -/
def version_lt : List Nat → List Nat → Bool
  | [], [] => false
  | [], b :: bs => if 0 < b then true else version_lt [] bs
  | _ :: _, [] => false
  | a :: as, b :: bs =>
    if a < b then true else if b < a then false else version_lt as bs

/-- The terminal no-range-data return value (src/cve.py lines 97-101). -/
def no_range_data : RangeCheck :=
  { fixed := none, method := "no_range_data",
    detail := "NVD/OSV did not provide clean version range data for this CVE." }

/-- check_version_fixed (src/cve.py lines 55-101).  Python truthiness of
the bounds is modelled by truthy; a version comparison whose operands do
not both parse corresponds to the InvalidVersion path and falls through. -/
def check_version_fixed (cve : CveRecord) (new_version : String) : RangeCheck :=
  let affected_step : RangeCheck :=
    match cve.affected_below with
    | some ab =>
      if ab = "" then no_range_data
      else
        match parse_version new_version, parse_version ab with
        | some nv, some a =>
          if version_lt nv a then
            { fixed := some false, method := "version_range",
              detail := "Affects versions below " ++ ab ++ ". New version " ++
                        new_version ++ " is still affected." }
          else
            { fixed := some true, method := "version_range",
              detail := "Affects versions below " ++ ab ++ ". New version " ++
                        new_version ++ " is safe." }
        | _, _ => no_range_data
    | none => no_range_data
  match cve.fixed_in with
  | some fi =>
    if fi = "" then affected_step
    else
      match parse_version new_version, parse_version fi with
      | some nv, some f =>
        if version_lt nv f then
          { fixed := some false, method := "version_range",
            detail := "Fixed in >= " ++ fi ++ ". New version " ++ new_version ++
                      " is still vulnerable." }
        else
          { fixed := some true, method := "version_range",
            detail := "Fixed in >= " ++ fi ++ ". New version " ++ new_version ++
                      " is safe." }
      | _, _ => affected_step
  | none => affected_step

/-- VersionRangeEvaluator contract, written from the words of the spec
(§4.1): helper deciding whether a bound is set and comparable against the
new version, returning the two parsed versions when so. -/
def comparable_bound (bound : Option String) (new_version : String) :
    Option (List Nat × List Nat) :=
  match bound with
  | some b =>
    if b = "" then none
    else
      match parse_version new_version, parse_version b with
      | some nv, some bv => some (nv, bv)
      | _, _ => none
  | none => none

/-- VersionRangeEvaluator contract, written from the words of the spec
(§4.1): fixed=true iff new_version is at least fixed_in when that bound is
set and comparable; else fixed=false iff new_version is below
affected_below when that bound is set and comparable; else no answer. -/
def range_contract (cve : CveRecord) (new_version : String) : Option Bool :=
  match comparable_bound cve.fixed_in new_version with
  | some (nv, fi) => some (!version_lt nv fi)
  | none =>
    match comparable_bound cve.affected_below new_version with
    | some (nv, ab) => some (!version_lt nv ab)
    | none => none

/-! ## File-change relevance matching (src/differ.py lines 162-211) -/

/-- Input shape of file_changed_for_promise: the diff summary produced by
diff_versions (src/differ.py lines 17-45 and 130-159).  Only the fields the
matcher reads are included. -/
structure DiffResult where
  available : Bool
  changed : List String
  reason : String

/-- Word characters of the identifier regex at src/differ.py line 180,
in the ASCII model of the lowercased description. -/
def word_char (c : Char) : Bool := c.isAlpha || c.isDigit || c = '_'

/-- Maximal runs of word characters in a character list, in order: a word
character opens a new run unless the previous character already belongs to
one. -/
def word_runs : List Char → List (List Char)
  | [] => []
  | c :: cs =>
    if word_char c then
      match word_runs cs, cs with
      | r :: rs, d :: _ => if word_char d then (c :: r) :: rs else [c] :: r :: rs
      | _, _ => [[c]]
    else word_runs cs

/-- Candidate identifier extraction (src/differ.py lines 176-180):
re.findall of \b([a-z][a-z0-9_]{2,})\b over the lowercased description,
which on a lowercased ASCII string yields exactly the maximal
word-character runs that begin with a lowercase letter and have length at
least 3. -/
def candidate_names (description : String) : List (List Char) :=
  (word_runs (to_lower_chars description)).filter fun r =>
    3 ≤ r.length && (match r.head? with
                     | some c => c.isLower
                     | none => false)

/-- Substring containment on character lists: the semantics of the Python
expression name in cf_lower at src/differ.py line 187. -/
def is_substring (needle : List Char) : List Char → Bool
  | [] => needle.isEmpty
  | c :: t => needle.isPrefixOf (c :: t) || is_substring needle t

/-- Stopword tuple at src/differ.py line 187. -/
def stop_words : List (List Char) :=
  ["fix".toList, "the".toList, "was".toList, "has".toList,
   "and".toList, "for".toList, "in".toList]

/-- Relevance filter (src/differ.py lines 183-189): the changed files whose
lowercased path contains some non-stopword candidate name. -/
def relevant_changes_for (changed : List String) (description : String) :
    List String :=
  changed.filter fun cf =>
    (candidate_names description).any fun n =>
      is_substring n (to_lower_chars cf) && !stop_words.contains n

/-- file_changed_for_promise (src/differ.py lines 162-211).  The source
also reads promise["bug_class"] at line 174 but never uses it. -/
def file_changed_for_promise (diff_result : DiffResult) (promise : Promise) :
    DiffCheck :=
  if !diff_result.available then
    { checked := false, files_changed := none, relevant_changes := [],
      changed_sample := [], reason := diff_result.reason }
  else
    let changed := diff_result.changed
    let relevant := relevant_changes_for changed promise.description
    if !relevant.isEmpty then
      { checked := true, files_changed := some true,
        relevant_changes := relevant.take 5, changed_sample := [],
        reason := "Relevant file(s) changed: " ++
                  String.intercalate ", " (relevant.take 3) }
    else if !changed.isEmpty then
      { checked := true, files_changed := none, relevant_changes := [],
        changed_sample := changed.take 3,
        reason := toString changed.length ++
                  " file(s) changed but none clearly match the promise description." }
    else
      { checked := true, files_changed := some false, relevant_changes := [],
        changed_sample := [],
        reason := "No files changed between versions — fix may not have been applied." }

/-! ## Behavioral probe runner (src/prober.py)

The probe scripts themselves run in external processes; their outcomes
enter the embedding as explicit parameters.  The catalog PROBES
(src/prober.py lines 16-325) defines both a Python and a Node.js script
for each of its five bug classes; the script bodies are external code and
only the catalog keys matter to the control flow verified here. -/

/-- Keys of the PROBES catalog (src/prober.py lines 16-325).  Every entry
carries both python_code and node_code. -/
def PROBES : List String :=
  ["buffer_overflow", "memory_leak", "input_validation",
   "integer_overflow", "denial_of_service"]

/-- Outcome of the sandbox install step (subprocess pip/npm install). -/
inductive InstallOutcome where
  | ok
  | failed
deriving DecidableEq

/-- Outcome of executing the probe script subprocess. -/
inductive ExecOutcome where
  | completed (stdout : String)
  | timedOut
  | execError (msg : String)
deriving DecidableEq

/-- Environment outcomes a probe invocation can encounter; passed to the
embedded runner in place of real process execution. -/
structure ProbeEnv where
  node_found : Bool
  npm_found : Bool
  install : InstallOutcome
  exec : ExecOutcome
deriving DecidableEq

/-- _interpret_probe_output (src/prober.py lines 463-499).  The memory_leak
branch calls int() on the text after LEAK:, which raises on non-numeric
text; that exception is modelled by the Except error channel (the callers
catch it). -/
def interpret_probe_output (output : String) (bug_class : String) :
    Except String ProbeReturn :=
  let unknown : Except String ProbeReturn :=
    .ok { ran := true, result := some "UNKNOWN",
          message := some ("Probe output: " ++ output),
          reason := none, passed := none }
  if output = "IMPORT_ERROR" then
    .ok { ran := false, result := none, message := none,
          reason := some "Package could not be imported (may be a CLI tool, not a library).",
          passed := none }
  else if bug_class = "buffer_overflow" then
    if starts_with "CRASH:" output then
      .ok { ran := true, result := some "CRASH",
            message := some ("Crashed on oversized input: " ++ output),
            reason := none, passed := some false }
    else if output = "HANDLED" then
      .ok { ran := true, result := some "HANDLED",
            message := some "Handled oversized input gracefully.",
            reason := none, passed := some true }
    else unknown
  else if bug_class = "memory_leak" then
    if starts_with "LEAK:" output then
      let size : List Char := if output.toList.contains ':' then
          (split_char ':' output.toList).getD 1 [] else ['?']
      match parse_int size with
      | some n =>
        .ok { ran := true, result := some "LEAK",
              message := some ("Memory grew by " ++
                toString (Int.fdiv (Int.fdiv n 1024) 1024) ++ "MB — possible leak."),
              reason := none, passed := some false }
      | none => .error ("invalid literal for int(): " ++ String.mk size)
    else if starts_with "STABLE:" output then
      .ok { ran := true, result := some "STABLE",
            message := some "Memory remained stable across 500 iterations.",
            reason := none, passed := some true }
    else unknown
  else if bug_class = "input_validation" then
    if starts_with "UNHANDLED:" output then
      .ok { ran := true, result := some "UNHANDLED",
            message := some ("Unhandled malicious input: " ++ output),
            reason := none, passed := some false }
    else if output = "VALIDATED" then
      .ok { ran := true, result := some "VALIDATED",
            message := some "Malicious inputs handled correctly.",
            reason := none, passed := some true }
    else unknown
  else if bug_class = "integer_overflow" then
    if starts_with "OVERFLOW:" output then
      .ok { ran := true, result := some "OVERFLOW",
            message := some ("Integer overflow detected: " ++ output),
            reason := none, passed := some false }
    else if output = "HANDLED" then
      .ok { ran := true, result := some "HANDLED",
            message := some "Boundary integers handled correctly.",
            reason := none, passed := some true }
    else unknown
  else if bug_class = "denial_of_service" then
    if starts_with "ISSUE:" output then
      .ok { ran := true, result := some "ISSUE",
            message := some ("DoS-like behavior detected: " ++ output),
            reason := none, passed := some false }
    else if output = "HANDLED" then
      .ok { ran := true, result := some "HANDLED",
            message := some "Large inputs handled without hanging.",
            reason := none, passed := some true }
    else unknown
  else unknown

/-- _run_python_probe (src/prober.py lines 353-398), with the sandbox
install and subprocess execution replaced by their outcomes. -/
def run_python_probe (package_name version bug_class : String)
    (install : InstallOutcome) (ex : ExecOutcome) : ProbeReturn :=
  match install with
  | .failed =>
    { ran := false, result := none, message := none,
      reason := some ("Could not install " ++ package_name ++ "==" ++ version ++
                      " for probing."),
      passed := none }
  | .ok =>
    match ex with
    | .timedOut =>
      { ran := true, result := some "TIMEOUT",
        message := some "Probe timed out (>30s) — possible hang or DoS vulnerability.",
        reason := none, passed := some false }
    | .execError e =>
      { ran := false, result := none, message := none,
        reason := some ("Probe execution error: " ++ e), passed := none }
    | .completed stdout =>
      match interpret_probe_output (String.mk (trim_chars stdout.toList)) bug_class with
      | .ok r => r
      | .error e =>
        { ran := false, result := none, message := none,
          reason := some ("Probe execution error: " ++ e), passed := none }

/-- _run_node_probe (src/prober.py lines 401-460), with process execution
replaced by outcome parameters.  Every PROBES entry has node_code, so the
missing-node_code return (lines 413-417) is unreachable for catalog keys. -/
def run_node_probe (package_name version bug_class : String)
    (env : ProbeEnv) : ProbeReturn :=
  if !env.node_found || !env.npm_found then
    { ran := false, result := none, message := none,
      reason := some "node/npm not found in PATH — cannot run Node.js probes.",
      passed := none }
  else if !(PROBES.contains bug_class) then
    { ran := false, result := none, message := none,
      reason := some ("No Node.js probe defined for bug class '" ++ bug_class ++ "'."),
      passed := none }
  else
    match env.install with
    | .failed =>
      { ran := false, result := none, message := none,
        reason := some ("Could not install " ++ package_name ++ "@" ++ version ++
                        " for probing."),
        passed := none }
    | .ok =>
      match env.exec with
      | .timedOut =>
        { ran := true, result := some "TIMEOUT",
          message := some "Probe timed out (>30s) — possible hang or DoS vulnerability.",
          reason := none, passed := some false }
      | .execError e =>
        { ran := false, result := none, message := none,
          reason := some ("Probe execution error: " ++ e), passed := none }
      | .completed stdout =>
        match interpret_probe_output (String.mk (trim_chars stdout.toList)) bug_class with
        | .ok r => r
        | .error e =>
          { ran := false, result := none, message := none,
            reason := some ("Probe execution error: " ++ e), passed := none }

/-- run_probe (src/prober.py lines 328-350): catalog lookup and ecosystem
dispatch. -/
def run_probe (package_name version bug_class ecosystem : String)
    (env : ProbeEnv) : ProbeReturn :=
  if !(PROBES.contains bug_class) then
    { ran := false, result := none, message := none,
      reason := some ("No probe defined for bug class '" ++ bug_class ++ "'."),
      passed := none }
  else if ecosystem = "PyPI" then
    run_python_probe package_name version bug_class env.install env.exec
  else if ecosystem = "npm" then
    run_node_probe package_name version bug_class env
  else
    { ran := false, result := none, message := none,
      reason := some ("Behavioral probing not supported for ecosystem '" ++
                      ecosystem ++ "'."),
      passed := none }

/-! ## Orchestrator probe slice (src/scanner.py lines 185-215) -/

/-- The probe signal computed per item by run_scan (src/scanner.py lines
185-215): the two run_probe outputs enter as parameters; they are consulted
only when probing is enabled, the ecosystem is PyPI and the item has a
truthy bug_class, otherwise the initial not-applicable result stands. -/
def scan_probe_result (skip_probe : Bool) (ecosystem : Option String)
    (bug_class : Option String) (old_version new_version : String)
    (new_probe old_probe : ProbeReturn) : ProbeReturn :=
  let not_applicable : ProbeReturn :=
    { ran := false, result := none, message := none,
      reason := some "Not applicable.", passed := none }
  if !skip_probe && ecosystem = some "PyPI" && truthy bug_class then
    if new_probe.ran && old_probe.ran then
      if old_probe.passed = some false && new_probe.passed = some true then
        { ran := true, result := none,
          message := some ("Old v" ++ old_version ++ " failed probe, new v" ++
                           new_version ++ " passed — fix confirmed."),
          reason := none, passed := some true }
      else if new_probe.passed = some false then
        { ran := true, result := none,
          message := some ("New v" ++ new_version ++
                           " still fails probe — fix not effective."),
          reason := none, passed := some false }
      else
        { ran := true, result := none,
          message := some ("Probe results inconclusive (old: " ++
                           (old_probe.result.getD "None") ++ ", new: " ++
                           (new_probe.result.getD "None") ++ ")."),
          reason := none, passed := none }
    else if new_probe.ran then new_probe
    else old_probe
  else not_applicable

/-! ## Specification-side definitions

Written from the words of the spec, for comparison against the embedded
source functions. -/

/-- Confidence formula the spec (§4.4) states for the negative
version-range override branch: min(95, 60 + (1-ratio)*35). -/
def spec_negative_confidence (ratio : ℚ) : Int :=
  min 95 (Int.floor ((60 : ℚ) + (1 - ratio) * 35))

/-- Candidate tokens as the spec (§4.2) words them: maximal
alphanumeric/underscore runs of length at least 3 of the lowercased
description, with no condition on the first character. -/
def claim_tokens (description : String) : List (List Char) :=
  (word_runs (to_lower_chars description)).filter fun r => 3 ≤ r.length

/-- Risk score as the spec (§4.5) words it:
round(100 × exposed_weight / total_weight, 1) over verdict-record pairs. -/
def spec_risk_score (pairs : List (Verdict × CveRecord)) : ℚ :=
  py_round1 (100 * (pairs.map pair_exposed).sum / ((pairs.map pair_weight).sum : ℚ))

/-- Label thresholds as the spec (§4.5) words them:
at least 70 CRITICAL, at least 45 HIGH, at least 20 MEDIUM, above 0 LOW,
else NONE. -/
def spec_risk_label (score : ℚ) : String :=
  if 70 ≤ score then "CRITICAL"
  else if 45 ≤ score then "HIGH"
  else if 20 ≤ score then "MEDIUM"
  else if 0 < score then "LOW"
  else "NONE"

/-! ## Model validation

Concrete evaluations pinning the embedding to the Python semantics
(regex token extraction, version parsing, fusion arithmetic). -/

example : candidate_names "2fa bypass patched" = ["bypass".toList, "patched".toList] := by
  decide

example : candidate_names "fix the auth_token overflow in x9" =
    ["fix".toList, "the".toList, "auth_token".toList, "overflow".toList] := by decide

example : candidate_names "ab cde_ _xyz a1b2" = ["cde_".toList, "a1b2".toList] := by decide

example : parse_version "4.2.0" = some [4, 2, 0] := by decide

example : parse_version "4.2.0rc1" = none := by decide

example : version_lt [4, 1, 9] [4, 2, 0] = true := by decide

example : version_lt [4, 2] [4, 2, 0] = false := by decide

example :
    (check_version_fixed ⟨"CVE-X", "d", some "HIGH", some "4.2.0", none⟩ "4.2.0").fixed
      = some true := by decide

example :
    (check_version_fixed ⟨"CVE-X", "d", some "HIGH", some "4.2.0", none⟩ "4.1.9").fixed
      = some false := by decide

example : compute_verdict [] none = ("UNCONFIRMED", 30) := by decide

example : compute_verdict [(40, false), (35, true), (25, true)] (some false) =
    ("NOT_FIXED", 65) := by
  norm_num [compute_verdict, pos_ratio, total_weight, positive_weight]

example : compute_verdict [(40, false), (35, true)] none = ("UNCONFIRMED", 44) := by
  norm_num [compute_verdict, pos_ratio, total_weight, positive_weight]
  decide

/-! ## Shared helper lemmas -/

theorem positive_weight_le_total (weights : List (Nat × Bool)) :
    positive_weight weights ≤ total_weight weights := by
  induction weights with
  | nil => simp [positive_weight, total_weight]
  | cons p l ih =>
    simp only [positive_weight, total_weight, List.filter_cons] at *
    by_cases h : p.2 <;> simp [h] <;> omega

theorem pos_ratio_bounds (weights : List (Nat × Bool)) :
    0 ≤ pos_ratio weights ∧ pos_ratio weights ≤ 1 := by
  unfold pos_ratio
  split
  · constructor
    · exact div_nonneg (by positivity) (by positivity)
    · rw [div_le_one (by exact_mod_cast ‹0 < total_weight weights›)]
      exact_mod_cast positive_weight_le_total weights
  · norm_num

theorem total_weight_pos_not_isEmpty {weights : List (Nat × Bool)}
    (h : 0 < total_weight weights) : weights.isEmpty = false := by
  cases weights with
  | nil => simp [total_weight] at h
  | cons p l => rfl

theorem compute_verdict_confidence_bounds (weights : List (Nat × Bool)) (cf : Option Bool) :
    0 ≤ (compute_verdict weights cf).2 ∧ (compute_verdict weights cf).2 ≤ 100 := by
  obtain ⟨hr0, hr1⟩ := pos_ratio_bounds weights
  set r := pos_ratio weights with hr
  unfold compute_verdict
  split
  · norm_num
  · rw [← hr]
    have h70 : (0 : Int) ≤ Int.floor ((70 : ℚ) + (1 - r) * 25) := by
      rw [Int.le_floor]; push_cast; nlinarith
    have h70' : Int.floor ((70 : ℚ) + (1 - r) * 25) ≤ 95 := by
      have hle : ((70 : ℚ) + (1 - r) * 25) ≤ 95 := by nlinarith
      calc Int.floor ((70 : ℚ) + (1 - r) * 25) ≤ Int.floor (95 : ℚ) := Int.floor_mono hle
        _ = 95 := by norm_num
    have h28 : (0 : Int) ≤ Int.floor ((70 : ℚ) + r * 28) := by
      rw [Int.le_floor]; push_cast; nlinarith
    have h30 : (0 : Int) ≤ Int.floor ((50 : ℚ) + r * 30) := by
      rw [Int.le_floor]; push_cast; nlinarith
    have h330 : (0 : Int) ≤ Int.floor ((30 : ℚ) + r * 30) := by
      rw [Int.le_floor]; push_cast; nlinarith
    have h330' : Int.floor ((30 : ℚ) + r * 30) ≤ 100 := by
      have hle : ((30 : ℚ) + r * 30) ≤ 100 := by nlinarith
      calc Int.floor ((30 : ℚ) + r * 30) ≤ Int.floor (100 : ℚ) := Int.floor_mono hle
        _ = 100 := by norm_num
    have h635 : (0 : Int) ≤ Int.floor ((60 : ℚ) + (1 - r) * 35) := by
      rw [Int.le_floor]; push_cast; nlinarith
    split
    · split <;> simp_all <;> omega
    · split
      · constructor
        · exact le_min h28 (by norm_num)
        · calc min (Int.floor ((70 : ℚ) + r * 28)) 97 ≤ 97 := min_le_right _ _
            _ ≤ 100 := by norm_num
      · split
        · constructor
          · exact le_min h30 (by norm_num)
          · calc min (Int.floor ((50 : ℚ) + r * 30)) 75 ≤ 75 := min_le_right _ _
              _ ≤ 100 := by norm_num
        · split
          · exact ⟨h330, h330'⟩
          · constructor
            · exact le_min h635 (by norm_num)
            · calc min (Int.floor ((60 : ℚ) + (1 - r) * 35)) 95 ≤ 95 := min_le_right _ _
                _ ≤ 100 := by norm_num

theorem pair_weight_pos (p : Verdict × CveRecord) : 0 < pair_weight p := by
  unfold pair_weight severity_weight
  repeat' split
  all_goals norm_num

theorem zip_unzip_maps (pairs : List (Verdict × CveRecord)) :
    (pairs.map Prod.fst).zip (pairs.map Prod.snd) = pairs := by
  rw [List.zip_map']
  simp

theorem is_substring_correct (needle hay : List Char) :
    is_substring needle hay = true ↔ needle <:+: hay := by
  induction hay with
  | nil =>
    simp [is_substring, List.isEmpty_iff]
  | cons c t ih =>
    simp only [is_substring, Bool.or_eq_true, List.isPrefixOf_iff_prefix, ih,
      List.infix_cons_iff]

/-! ## Claim theorems -/

/-- Claim C1, counterexample: with an explicitly negative version-range
signal and no other contributing signals (ratio 0) the code returns
confidence 95, not the 65 the claim asserts; and with ratio 15/55 the code
returns 88 while the claim formula min(95, 60 + (1-ratio)*35) yields 85. -/
theorem negative_range_claim_counterexample :
    compute_verdict [(40, false)] (some false) = ("NOT_FIXED", 95) ∧ (95 : Int) ≠ 65 ∧
    compute_verdict [(40, false), (15, true)] (some false) = ("NOT_FIXED", 88) ∧
    spec_negative_confidence (pos_ratio [(40, false), (15, true)]) = 85 ∧
    (88 : Int) ≠ 85 := by
  refine ⟨?_, by norm_num, ?_, ?_, by norm_num⟩ <;>
    norm_num [compute_verdict, spec_negative_confidence, pos_ratio, total_weight,
      positive_weight]

/-- Claim C1, amended: whenever the version-range signal is explicitly
negative (cve fixed=false) and the signal set carries positive total
weight, the fusion function returns NOT_FIXED with confidence
int(70 + (1-ratio)*25) when ratio < 0.4 and a flat 65 otherwise; in
particular ratio 0 gives confidence 95. -/
theorem negative_range_forces_not_fixed (weights : List (Nat × Bool))
    (h : 0 < total_weight weights) :
    compute_verdict weights (some false) =
      ("NOT_FIXED",
        if pos_ratio weights < (2 : ℚ) / 5 then
          Int.floor ((70 : ℚ) + (1 - pos_ratio weights) * 25)
        else 65) := by
  unfold compute_verdict
  rw [total_weight_pos_not_isEmpty h]
  by_cases hr : pos_ratio weights < (2 : ℚ) / 5 <;> simp [hr]

/-- Witness for the amended C1: the negative version-range signal alone
yields NOT_FIXED with confidence 95. -/
theorem negative_range_forces_not_fixed_witness :
    compute_verdict [(40, false)] (some false) = ("NOT_FIXED", 95) := by
  have h := negative_range_forces_not_fixed [(40, false)] (by norm_num [total_weight])
  rw [h]
  norm_num [pos_ratio, total_weight, positive_weight]

/-- Claim C2: check_version_fixed decides fixed/not-fixed/unknown exactly
as the spec contract states — the fixed_in bound when set and comparable
(fixed iff new_version is not below it), else the affected_below bound
when set and comparable (fixed iff new_version is not below it), else no
answer; being a total function, it never raises on malformed versions. -/
theorem check_version_fixed_matches_contract (cve : CveRecord) (new_version : String) :
    (check_version_fixed cve new_version).fixed = range_contract cve new_version := by
  unfold check_version_fixed range_contract comparable_bound
  cases hfi : cve.fixed_in with
  | none =>
    cases hab : cve.affected_below with
    | none => simp [no_range_data]
    | some ab =>
      by_cases hab0 : ab = ""
      · simp [hab0, no_range_data]
      · simp only [hab0, if_neg]
        cases hnv : parse_version new_version with
        | none => simp [no_range_data]
        | some nv =>
          cases hpb : parse_version ab with
          | none => simp [no_range_data]
          | some a => cases h : version_lt nv a <;> simp [h]
  | some fi =>
    by_cases hfi0 : fi = ""
    · simp only [hfi0, if_pos]
      cases hab : cve.affected_below with
      | none => simp [no_range_data]
      | some ab =>
        by_cases hab0 : ab = ""
        · simp [hab0, no_range_data]
        · simp only [hab0, if_neg]
          cases hnv : parse_version new_version with
          | none => simp [no_range_data]
          | some nv =>
            cases hpb : parse_version ab with
            | none => simp [no_range_data]
            | some a => cases h : version_lt nv a <;> simp [h]
    · simp only [hfi0, if_neg]
      cases hnv : parse_version new_version with
      | none =>
        cases hab : cve.affected_below with
        | none => simp [no_range_data]
        | some ab =>
          by_cases hab0 : ab = "" <;> simp [hab0, no_range_data]
      | some nv =>
        cases hpf : parse_version fi with
        | none =>
          cases hab : cve.affected_below with
          | none => simp [no_range_data]
          | some ab =>
            by_cases hab0 : ab = ""
            · simp [hab0, no_range_data]
            · cases hpb : parse_version ab with
              | none => simp [hab0, hpb, no_range_data]
              | some a => cases h : version_lt nv a <;> simp [hab0, hpb, h]
        | some f => cases h : version_lt nv f <;> simp [h]

/-- Claim C3: when the version-range signal is not explicitly negative and
the signal set carries positive total weight, the verdict follows the four
ratio brackets with the stated confidence formulas (Python int() made
explicit as floor); in particular three positive signals of weights
40, 35, 25 give FIXED with confidence 97. -/
theorem fusion_ratio_brackets (weights : List (Nat × Bool)) (cf : Option Bool)
    (ht : 0 < total_weight weights) (hcf : cf ≠ some false) :
    ((3 : ℚ) / 4 ≤ pos_ratio weights →
      compute_verdict weights cf =
        ("FIXED", min 97 (Int.floor ((70 : ℚ) + pos_ratio weights * 28)))) ∧
    ((1 : ℚ) / 2 ≤ pos_ratio weights → pos_ratio weights < (3 : ℚ) / 4 →
      compute_verdict weights cf =
        ("FIXED", min 75 (Int.floor ((50 : ℚ) + pos_ratio weights * 30)))) ∧
    ((1 : ℚ) / 4 ≤ pos_ratio weights → pos_ratio weights < (1 : ℚ) / 2 →
      compute_verdict weights cf =
        ("UNCONFIRMED", Int.floor ((30 : ℚ) + pos_ratio weights * 30))) ∧
    (pos_ratio weights < (1 : ℚ) / 4 →
      compute_verdict weights cf =
        ("NOT_FIXED", min 95 (Int.floor ((60 : ℚ) + (1 - pos_ratio weights) * 35)))) ∧
    compute_verdict [(40, true), (35, true), (25, true)] cf = ("FIXED", 97) := by
  have hne : ¬(weights.isEmpty = true) := by
    rw [total_weight_pos_not_isEmpty ht]; simp
  refine ⟨?_, ?_, ?_, ?_, ?_⟩
  · intro h1
    unfold compute_verdict
    rw [if_neg hne, if_neg hcf, if_pos h1, min_comm]
  · intro h1 h2
    unfold compute_verdict
    rw [if_neg hne, if_neg hcf, if_neg (not_le.mpr h2), if_pos h1, min_comm]
  · intro h1 h2
    have h3 : ¬ (3 : ℚ) / 4 ≤ pos_ratio weights := by
      intro hcon; exact absurd (lt_of_le_of_lt hcon h2) (by norm_num)
    unfold compute_verdict
    rw [if_neg hne, if_neg hcf, if_neg h3, if_neg (not_le.mpr h2), if_pos h1]
  · intro h1
    have h3 : ¬ (3 : ℚ) / 4 ≤ pos_ratio weights := by
      intro hcon; exact absurd (lt_of_le_of_lt hcon h1) (by norm_num)
    have h4 : ¬ (1 : ℚ) / 2 ≤ pos_ratio weights := by
      intro hcon; exact absurd (lt_of_le_of_lt hcon h1) (by norm_num)
    unfold compute_verdict
    rw [if_neg hne, if_neg hcf, if_neg h3, if_neg h4, if_neg (not_le.mpr h1), min_comm]
  · unfold compute_verdict
    simp only [hcf]
    norm_num [pos_ratio, total_weight, positive_weight]

/-- Witness for C3: the all-positive signal set with a non-negative
version-range signal yields FIXED with confidence 97. -/
theorem fusion_ratio_brackets_witness :
    compute_verdict [(40, true), (35, true), (25, true)] (some true) = ("FIXED", 97) :=
  (fusion_ratio_brackets [(40, true), (35, true), (25, true)] (some true)
    (by norm_num [total_weight]) (by simp)).2.2.2.2

/-- Claim C4: when no signal contributes weight (version range unknown,
file diff unchecked, probe not run or inconclusive), score_promise returns
UNCONFIRMED with confidence exactly 30, whatever the promise contains. -/
theorem no_signals_unconfirmed_30 (promise : Promise) (cve_check : RangeCheck)
    (diff_check : DiffCheck) (probe_result : ProbeReturn)
    (h1 : cve_check.fixed = none) (h2 : diff_check.checked = false)
    (h3 : probe_result.ran = false ∨ probe_result.passed = none) :
    (score_promise promise cve_check diff_check probe_result).status = "UNCONFIRMED" ∧
    (score_promise promise cve_check diff_check probe_result).confidence = 30 := by
  have hw : cve_weights cve_check.fixed ++ diff_weights diff_check ++
      probe_weights probe_result = [] := by
    rcases h3 with h3 | h3 <;>
      simp [cve_weights, diff_weights, probe_weights, h1, h2, h3]
  simp [score_promise, hw, compute_verdict]

/-- Witness for C4: a concrete promise with all three signals absent gets
UNCONFIRMED with confidence 30. -/
theorem no_signals_unconfirmed_30_witness :
    (score_promise ⟨"cve", "CVE-2024-0001", "buffer overflow in parser", none⟩
      ⟨none, "none", "No version range data available."⟩
      ⟨false, none, [], [], "File diff requires PyPI or npm ecosystem."⟩
      ⟨false, none, none, some "Not applicable.", none⟩).status = "UNCONFIRMED" ∧
    (score_promise ⟨"cve", "CVE-2024-0001", "buffer overflow in parser", none⟩
      ⟨none, "none", "No version range data available."⟩
      ⟨false, none, [], [], "File diff requires PyPI or npm ecosystem."⟩
      ⟨false, none, none, some "Not applicable.", none⟩).confidence = 30 :=
  no_signals_unconfirmed_30 _ _ _ _ rfl rfl (Or.inl rfl)

/-- Claim C5: compute_risk_score returns 0/NONE on an empty verdict list;
on paired verdicts and records it returns round(100 × exposed / total, 1)
with severity weights 10/7/4/1/3 and NOT_FIXED/UNCONFIRMED multipliers
1 and 0.5, labelled by the 70/45/20/0 thresholds; three all-FIXED promises
give 0/NONE and one CRITICAL NOT_FIXED promise gives 100/CRITICAL. -/
theorem risk_aggregation (pairs : List (Verdict × CveRecord))
    (cves : List CveRecord) (hne : pairs ≠ []) :
    compute_risk_score [] cves = { score := 0, label := "NONE", color := "green" } ∧
    (compute_risk_score (pairs.map Prod.fst) (pairs.map Prod.snd)).score =
      spec_risk_score pairs ∧
    (compute_risk_score (pairs.map Prod.fst) (pairs.map Prod.snd)).label =
      spec_risk_label (spec_risk_score pairs) ∧
    compute_risk_score
      [⟨"FIXED", 97, []⟩, ⟨"FIXED", 80, []⟩, ⟨"FIXED", 70, []⟩]
      [⟨"CVE-1", "a", some "CRITICAL", none, none⟩,
       ⟨"CVE-2", "b", some "HIGH", none, none⟩,
       ⟨"CVE-3", "c", some "MEDIUM", none, none⟩] =
      { score := 0, label := "NONE", color := "green" } ∧
    compute_risk_score [⟨"NOT_FIXED", 95, []⟩]
      [⟨"CVE-4", "d", some "CRITICAL", none, none⟩] =
      { score := 100, label := "CRITICAL", color := "red" } := by
  have htot : 0 < (pairs.map pair_weight).sum := by
    cases pairs with
    | nil => exact absurd rfl hne
    | cons p l =>
      have := pair_weight_pos p
      simp only [List.map_cons, List.sum_cons]
      omega
  have hemp : ((pairs.map Prod.fst).isEmpty) = false := by
    cases pairs with
    | nil => exact absurd rfl hne
    | cons p l => rfl
  have hscore : (compute_risk_score (pairs.map Prod.fst) (pairs.map Prod.snd)).score =
      spec_risk_score pairs ∧
      (compute_risk_score (pairs.map Prod.fst) (pairs.map Prod.snd)).label =
      spec_risk_label (spec_risk_score pairs) := by
    unfold compute_risk_score spec_risk_label
    rw [zip_unzip_maps]
    simp only [hemp, Bool.false_eq_true, if_false, if_pos htot]
    have harith : (pairs.map pair_exposed).sum / ((pairs.map pair_weight).sum : ℚ) * 100 =
        100 * (pairs.map pair_exposed).sum / ((pairs.map pair_weight).sum : ℚ) := by
      ring
    rw [harith]
    have hs : py_round1 (100 * (pairs.map pair_exposed).sum /
        ((pairs.map pair_weight).sum : ℚ)) = spec_risk_score pairs := rfl
    rw [hs]
    split
    · exact ⟨rfl, rfl⟩
    · split
      · exact ⟨rfl, rfl⟩
      · split
        · exact ⟨rfl, rfl⟩
        · split
          · exact ⟨rfl, rfl⟩
          · exact ⟨rfl, rfl⟩
  refine ⟨rfl, hscore.1, hscore.2, ?_, ?_⟩ <;>
    · simp only [compute_risk_score, pair_weight, pair_exposed, severity_weight,
        List.zip_cons_cons, List.zip_nil_right, List.map_cons, List.map_nil,
        List.sum_cons, List.sum_nil, List.isEmpty_cons,
        eq_false (by decide : ¬ ("FIXED" : String) = "NOT_FIXED"),
        eq_false (by decide : ¬ ("FIXED" : String) = "UNCONFIRMED"),
        eq_false (by decide : ¬ ("HIGH" : String) = "CRITICAL"),
        eq_false (by decide : ¬ ("MEDIUM" : String) = "CRITICAL"),
        eq_false (by decide : ¬ ("MEDIUM" : String) = "HIGH")]
      norm_num [py_round1, round_half_even]

/-- Witness for C5: a single CRITICAL NOT_FIXED pair, with the
nonemptiness hypothesis discharged. -/
theorem risk_aggregation_witness :
    (compute_risk_score
      ([((⟨"NOT_FIXED", 95, []⟩ : Verdict),
         (⟨"CVE-4", "d", some "CRITICAL", none, none⟩ : CveRecord))].map Prod.fst)
      ([((⟨"NOT_FIXED", 95, []⟩ : Verdict),
         (⟨"CVE-4", "d", some "CRITICAL", none, none⟩ : CveRecord))].map Prod.snd)).label =
    spec_risk_label (spec_risk_score
      [((⟨"NOT_FIXED", 95, []⟩ : Verdict),
        (⟨"CVE-4", "d", some "CRITICAL", none, none⟩ : CveRecord))]) :=
  (risk_aggregation
    [((⟨"NOT_FIXED", 95, []⟩ : Verdict),
      (⟨"CVE-4", "d", some "CRITICAL", none, none⟩ : CveRecord))] []
    (by simp)).2.2.1

/-- Claim C6, counterexample: on an available diff with changed file
2fa.py and description "2fa bypass patched", the code reports
files_changed unclear (none), although "2fa" is a length-3
alphanumeric/underscore token of the description, not a stopword, and is
contained in the changed path — under the claim's token description the
result would have to be files_changed=true. -/
theorem file_diff_claim_counterexample :
    (file_changed_for_promise ⟨true, ["2fa.py"], "ok"⟩
       ⟨"cve", "CVE-2024-0001", "2fa bypass patched", none⟩).files_changed = none ∧
    "2fa".toList ∈ claim_tokens "2fa bypass patched" ∧
    "2fa".toList ∉ stop_words ∧
    is_substring "2fa".toList (to_lower_chars "2fa.py") = true :=
  ⟨by decide, by decide, by decide, by decide⟩

/-- Claim C6, amended: on an available diff, checked=true and
files_changed is true iff some changed file's lowercased path contains a
candidate token — a maximal alphanumeric/underscore run of the lowercased
description that begins with a letter and has length at least 3 — outside
the stopword set; false iff no file changed; none iff files changed but
none matched.  On an unavailable diff, checked=false with the diff's
reason and no polarity, and the fusion function gives an unchecked
file-diff signal zero weight. -/
theorem file_diff_relevance (diff_result : DiffResult) (promise : Promise) :
    (diff_result.available = true →
      (file_changed_for_promise diff_result promise).checked = true ∧
      ((file_changed_for_promise diff_result promise).files_changed = some true ↔
        ∃ cf ∈ diff_result.changed, ∃ n ∈ candidate_names promise.description,
          n ∉ stop_words ∧ n <:+: to_lower_chars cf) ∧
      ((file_changed_for_promise diff_result promise).files_changed = some false ↔
        diff_result.changed = []) ∧
      ((file_changed_for_promise diff_result promise).files_changed = none ↔
        diff_result.changed ≠ [] ∧
        ¬ ∃ cf ∈ diff_result.changed, ∃ n ∈ candidate_names promise.description,
            n ∉ stop_words ∧ n <:+: to_lower_chars cf)) ∧
    (diff_result.available = false →
      (file_changed_for_promise diff_result promise).checked = false ∧
      (file_changed_for_promise diff_result promise).files_changed = none ∧
      (file_changed_for_promise diff_result promise).reason = diff_result.reason) ∧
    (∀ diff_check : DiffCheck, diff_check.checked = false →
      diff_weights diff_check = []) := by
  have hrel : (relevant_changes_for diff_result.changed promise.description ≠ []) ↔
      ∃ cf ∈ diff_result.changed, ∃ n ∈ candidate_names promise.description,
        n ∉ stop_words ∧ n <:+: to_lower_chars cf := by
    unfold relevant_changes_for
    rw [ne_eq, List.filter_eq_nil_iff]
    push_neg
    constructor
    · rintro ⟨cf, hcf, hp⟩
      rw [List.any_eq_true] at hp
      obtain ⟨n, hn, hcond⟩ := hp
      rw [Bool.and_eq_true] at hcond
      exact ⟨cf, hcf, n, hn, by simpa using hcond.2,
        (is_substring_correct n _).mp hcond.1⟩
    · rintro ⟨cf, hcf, n, hn, hstop, hinf⟩
      refine ⟨cf, hcf, ?_⟩
      rw [List.any_eq_true]
      refine ⟨n, hn, ?_⟩
      rw [Bool.and_eq_true]
      exact ⟨(is_substring_correct n _).mpr hinf, by simpa using hstop⟩
  refine ⟨?_, ?_, ?_⟩
  · intro hav
    by_cases hr : relevant_changes_for diff_result.changed promise.description = []
    · by_cases hc : diff_result.changed = []
      · have hfc : file_changed_for_promise diff_result promise =
            { checked := true, files_changed := some false, relevant_changes := [],
              changed_sample := [],
              reason := "No files changed between versions — fix may not have been applied." } := by
          unfold file_changed_for_promise
          rw [hav]
          simp [hr, hc, relevant_changes_for]
        rw [hfc]
        refine ⟨rfl, ?_, by simp [hc], ?_⟩
        · rw [← hrel]
          simp [hr]
        · simp [hc]
      · have hfc : file_changed_for_promise diff_result promise =
            { checked := true, files_changed := none, relevant_changes := [],
              changed_sample := diff_result.changed.take 3,
              reason := toString diff_result.changed.length ++
                " file(s) changed but none clearly match the promise description." } := by
          unfold file_changed_for_promise
          rw [hav]
          simp [hr, hc]
        rw [hfc]
        refine ⟨rfl, ?_, by simp [hc], ?_⟩
        · rw [← hrel]
          simp [hr]
        · rw [← hrel]
          simp [hr, hc]
    · have hm := hrel.mp hr
      have hc : diff_result.changed ≠ [] := by
        obtain ⟨cf, hcf, _⟩ := hm
        intro h
        rw [h] at hcf
        exact absurd hcf (List.not_mem_nil cf)
      have hfc : file_changed_for_promise diff_result promise =
          { checked := true, files_changed := some true,
            relevant_changes :=
              (relevant_changes_for diff_result.changed promise.description).take 5,
            changed_sample := [],
            reason := "Relevant file(s) changed: " ++ String.intercalate ", "
              ((relevant_changes_for diff_result.changed promise.description).take 3) } := by
        unfold file_changed_for_promise
        rw [hav]
        simp [hr]
      rw [hfc]
      refine ⟨rfl, by simp [hm], by simp [hc], ?_⟩
      rw [← hrel]
      simp [hr]
  · intro hav
    have hfc : file_changed_for_promise diff_result promise =
        { checked := false, files_changed := none, relevant_changes := [],
          changed_sample := [], reason := diff_result.reason } := by
      unfold file_changed_for_promise
      rw [hav]
      simp
    rw [hfc]
    exact ⟨rfl, rfl, rfl⟩
  · intro diff_check h
    simp [diff_weights, h]

/-- Witness for the amended C6: an available diff whose changed file
src/auth.py matches the description token "auth" is reported checked. -/
theorem file_diff_relevance_witness :
    (file_changed_for_promise ⟨true, ["src/auth.py", "README.md"], "ok"⟩
       ⟨"cve", "CVE-2024-0002", "auth bypass corrected", none⟩).checked = true :=
  ((file_diff_relevance ⟨true, ["src/auth.py", "README.md"], "ok"⟩
     ⟨"cve", "CVE-2024-0002", "auth bypass corrected", none⟩).1 rfl).1

/-- Claim C7: when probing is enabled for a PyPI package with a mapped bug
class and both probe runs ran, the orchestrator combines them: old failed
and new passed gives a positive probe signal whose message states the fix
is confirmed; a failed new probe gives a negative signal regardless of the
old outcome; every other combination is inconclusive with no polarity. -/
theorem probe_combination (skip : Bool) (eco bc : Option String) (ov nv : String)
    (np op : ProbeReturn) (hs : skip = false) (he : eco = some "PyPI")
    (hb : truthy bc = true) (h1 : op.ran = true) (h2 : np.ran = true) :
    (op.passed = some false → np.passed = some true →
      scan_probe_result skip eco bc ov nv np op =
        { ran := true, result := none,
          message := some ("Old v" ++ ov ++ " failed probe, new v" ++ nv ++
                           " passed — fix confirmed."),
          reason := none, passed := some true }) ∧
    (np.passed = some false →
      scan_probe_result skip eco bc ov nv np op =
        { ran := true, result := none,
          message := some ("New v" ++ nv ++ " still fails probe — fix not effective."),
          reason := none, passed := some false }) ∧
    (¬(op.passed = some false ∧ np.passed = some true) → np.passed ≠ some false →
      (scan_probe_result skip eco bc ov nv np op).ran = true ∧
      (scan_probe_result skip eco bc ov nv np op).passed = none) := by
  refine ⟨?_, ?_, ?_⟩
  · intro ho hn
    simp [scan_probe_result, hs, he, hb, h1, h2, ho, hn]
  · intro hn
    simp [scan_probe_result, hs, he, hb, h1, h2, hn]
  · intro hno hnf
    by_cases h3 : op.passed = some false
    · have h4 : ¬ np.passed = some true := fun hcon => hno ⟨h3, hcon⟩
      simp [scan_probe_result, hs, he, hb, h1, h2, h3, h4, hnf]
    · simp [scan_probe_result, hs, he, hb, h1, h2, h3, hnf]

/-- Witness for C7: a crashed old probe and a handled new probe produce
the positive fix-confirmed signal. -/
theorem probe_combination_witness :
    scan_probe_result false (some "PyPI") (some "buffer_overflow") "1.0" "1.1"
      ⟨true, some "HANDLED", none, none, some true⟩
      ⟨true, some "CRASH", none, none, some false⟩ =
      { ran := true, result := none,
        message := some ("Old v" ++ "1.0" ++ " failed probe, new v" ++ "1.1" ++
                         " passed — fix confirmed."),
        reason := none, passed := some true } :=
  (probe_combination false (some "PyPI") (some "buffer_overflow") "1.0" "1.1"
    ⟨true, some "HANDLED", none, none, some true⟩
    ⟨true, some "CRASH", none, none, some false⟩
    rfl rfl (by decide) rfl rfl).1 rfl rfl

/-- Claim C8: a probe whose execution exceeds the wall-clock timeout
returns ran=true, outcome TIMEOUT, passed=false — contributing the
negative probe weight (25, negative) — whereas a failed sandbox install
returns ran=false and contributes no weight. -/
theorem probe_timeout_negative (pkg ver bc : String) :
    run_python_probe pkg ver bc .ok .timedOut =
      { ran := true, result := some "TIMEOUT",
        message := some "Probe timed out (>30s) — possible hang or DoS vulnerability.",
        reason := none, passed := some false } ∧
    probe_weights (run_python_probe pkg ver bc .ok .timedOut) = [(25, false)] ∧
    (∀ ex : ExecOutcome,
      (run_python_probe pkg ver bc .failed ex).ran = false ∧
      probe_weights (run_python_probe pkg ver bc .failed ex) = []) ∧
    (∀ nf pf : Bool,
      run_probe pkg ver "denial_of_service" "PyPI" ⟨nf, pf, .ok, .timedOut⟩ =
        { ran := true, result := some "TIMEOUT",
          message := some "Probe timed out (>30s) — possible hang or DoS vulnerability.",
          reason := none, passed := some false }) := by
  refine ⟨rfl, rfl, fun ex => ⟨rfl, rfl⟩, fun nf pf => ?_⟩
  simp [run_probe, run_python_probe, PROBES]

/-- Claim C9: the fusion confidence always lies in [0, 100], and status
and confidence are deterministic functions of the signal set. -/
theorem fusion_confidence_bounded_and_deterministic
    (weights : List (Nat × Bool)) (cf : Option Bool) :
    0 ≤ (compute_verdict weights cf).2 ∧ (compute_verdict weights cf).2 ≤ 100 ∧
    ∀ w2 c2, weights = w2 → cf = c2 →
      compute_verdict weights cf = compute_verdict w2 c2 := by
  obtain ⟨h0, h1⟩ := compute_verdict_confidence_bounds weights cf
  exact ⟨h0, h1, fun w2 c2 hw hc => by rw [hw, hc]⟩

/-- Witness for C9 at a concrete signal set. -/
theorem fusion_confidence_bounded_witness :
    0 ≤ (compute_verdict [(40, true)] none).2 ∧
    (compute_verdict [(40, true)] none).2 ≤ 100 ∧
    compute_verdict [(40, true)] none = compute_verdict [(40, true)] none := by
  obtain ⟨h0, h1, h2⟩ := fusion_confidence_bounded_and_deterministic [(40, true)] none
  exact ⟨h0, h1, h2 [(40, true)] none rfl rfl⟩

/-- Claim C10: the orchestrator consults the probe runner only when the
ecosystem is exactly PyPI — for any npm scan the probe signal is the
not-applicable default (ran=false, reason "Not applicable.") — even though
run_probe itself handles the npm ecosystem through the Node.js path. -/
theorem npm_probe_gap :
    (∀ (skip : Bool) (bc : Option String) (ov nv : String) (np op : ProbeReturn),
      scan_probe_result skip (some "npm") bc ov nv np op =
        { ran := false, result := none, message := none,
          reason := some "Not applicable.", passed := none }) ∧
    (run_probe "left-pad" "1.3.0" "buffer_overflow" "npm"
        ⟨true, true, .ok, .completed "HANDLED"⟩).ran = true ∧
    (run_probe "left-pad" "1.3.0" "buffer_overflow" "npm"
        ⟨true, true, .ok, .completed "HANDLED"⟩).passed = some true := by
  refine ⟨?_, by decide, by decide⟩
  intro skip bc ov nv np op
  simp [scan_probe_result]

end PatchVerify
